import Mathlib

/-!
Verification development for `src/Source/SceneManager.cpp` (CS-330 scene
manager).  The C++ code is shallowly embedded: C++ `float` values are
modelled as exact rationals (the code only stores literals and adds
offsets, so no float-specific behaviour is relevant), the fixed-size
texture array `m_textureIDs` together with the counter `m_loadedTextures`
is modelled by the list of its loaded prefix, and all OpenGL / shader
side effects are modelled as explicit event traces.
-/

/-- Component triple mirroring `glm::vec3`. -/
structure Vec3 where
  x : ℚ
  y : ℚ
  z : ℚ
deriving DecidableEq

/-- Entry of the texture registry `m_textureIDs` (struct `TEXTURE_INFO`
in `SceneManager.h`): a GPU texture identifier together with its tag. -/
structure TEXTURE_INFO where
  ID : Int
  tag : String
deriving DecidableEq

/-- Entry of the material registry `m_objectMaterials`
(struct `OBJECT_MATERIAL`). -/
structure OBJECT_MATERIAL where
  diffuseColor : Vec3
  specularColor : Vec3
  shininess : ℚ
  tag : String
deriving DecidableEq

/-- The mutable state of `SceneManager` that the registry operations read
and write: the loaded prefix of the fixed array `m_textureIDs`
(`m_loadedTextures` is its length) and the vector `m_objectMaterials`. -/
structure SceneState where
  textureIDs : List TEXTURE_INFO
  objectMaterials : List OBJECT_MATERIAL
deriving DecidableEq

/-- Result of a successful `stbi_load` call: width, height and the number
of color channels of the decoded image. -/
structure ImageInfo where
  width : Int
  height : Int
  colorChannels : Int
deriving DecidableEq

/-- `SceneManager::CreateGLTexture` (SceneManager.cpp:60-124).
`image` is the result of the `stbi_load` call (`none` models a null
return), `freshID` the name produced by `glGenTextures`.  The C++ control
flow: if the image pointer is null, print and return `false`; otherwise,
if `colorChannels` is neither 3 nor 4, return `false` early (before the
registry is touched); otherwise append `(textureID, tag)` at index
`m_loadedTextures` and increment the counter, returning `true`. -/
def CreateGLTexture (image : Option ImageInfo) (freshID : Int) (tag : String)
    (s : SceneState) : Bool × SceneState :=
  match image with
  | none => (false, s)
  | some img =>
    if img.colorChannels = 3 ∨ img.colorChannels = 4 then
      (true, { s with textureIDs := s.textureIDs ++ [{ ID := freshID, tag := tag }] })
    else
      (false, s)

/-- An OpenGL texture-object call, used to trace `DestroyGLTextures`. -/
inductive GLCall where
  | genTextures
  | deleteTextures
deriving DecidableEq

/-- Loop body of `SceneManager::DestroyGLTextures` (SceneManager.cpp:148-154):
for each `i < m_loadedTextures` it calls `glGenTextures(1, &m_textureIDs[i].ID)`,
overwriting the stored ID with a freshly generated name. `fresh i` is the
name `glGenTextures` returns on iteration `i`. -/
def DestroyGLTexturesLoop (fresh : Nat → Int) :
    Nat → List TEXTURE_INFO → List GLCall × List TEXTURE_INFO
  | _, [] => ([], [])
  | i, e :: rest =>
    let r := DestroyGLTexturesLoop fresh (i + 1) rest
    (GLCall.genTextures :: r.1, { e with ID := fresh i } :: r.2)

/-- `SceneManager::DestroyGLTextures` (SceneManager.cpp:148-154): returns
the trace of OpenGL texture-object calls it makes and the resulting state. -/
def DestroyGLTextures (fresh : Nat → Int) (s : SceneState) :
    List GLCall × SceneState :=
  let r := DestroyGLTexturesLoop fresh 0 s.textureIDs
  (r.1, { s with textureIDs := r.2 })

/-- `SceneManager::FindTextureID` (SceneManager.cpp:162-180): linear scan
over the loaded textures, returning the ID of the first entry whose tag
compares equal, and -1 if the scan runs off the end. -/
def FindTextureID : List TEXTURE_INFO → String → Int
  | [], _ => -1
  | e :: rest, tag => if e.tag = tag then e.ID else FindTextureID rest tag

/-- Loop of `SceneManager::FindTextureSlot` (SceneManager.cpp:188-206) with
its running index made explicit. -/
def FindTextureSlotLoop : List TEXTURE_INFO → String → Int → Int
  | [], _, _ => -1
  | e :: rest, tag, index =>
    if e.tag = tag then index else FindTextureSlotLoop rest tag (index + 1)

/-- `SceneManager::FindTextureSlot` (SceneManager.cpp:188-206): linear scan
returning the index of the first entry whose tag matches, -1 if none. -/
def FindTextureSlot (l : List TEXTURE_INFO) (tag : String) : Int :=
  FindTextureSlotLoop l tag 0

/-- Loop of `SceneManager::FindMaterial` (SceneManager.cpp:223-236): scans
for the first entry whose tag matches and copies its `diffuseColor`,
`specularColor` and `shininess` into the out-parameter `material`
(the `tag` field of `material` is not copied); if no entry matches, the
out-parameter is left as it was. -/
def FindMaterialLoop : List OBJECT_MATERIAL → String → OBJECT_MATERIAL →
    OBJECT_MATERIAL
  | [], _, material => material
  | e :: rest, tag, material =>
    if e.tag = tag then
      { material with
        diffuseColor := e.diffuseColor
        specularColor := e.specularColor
        shininess := e.shininess }
    else FindMaterialLoop rest tag material

/-- `SceneManager::FindMaterial` (SceneManager.cpp:214-239): returns
`false` immediately when the registry is empty, otherwise runs the scan
loop and returns `true` regardless of whether any tag matched.  The pair
is (return value, final value of the by-reference out-parameter). -/
def FindMaterial (mats : List OBJECT_MATERIAL) (tag : String)
    (material : OBJECT_MATERIAL) : Bool × OBJECT_MATERIAL :=
  if mats.length = 0 then (false, material)
  else (true, FindMaterialLoop mats tag material)

/-- Side argument of `ShapeMeshes::DrawBoxMeshSide`. -/
inductive BoxSide where
  | top
  | bottom
  | left
  | right
  | front
  | back
deriving DecidableEq

/-- A draw call issued against the `ShapeMeshes` primitive library.
`taperedCylinder`'s three booleans are the arguments passed to
`DrawTaperedCylinderMesh`. -/
inductive DrawCall where
  | plane
  | box
  | boxSide (side : BoxSide)
  | cylinder
  | taperedCylinder (a b c : Bool)
  | torus
  | halfTorus
  | sphere
deriving DecidableEq

/-- A shader-uniform assignment or mesh draw performed while rendering.
`setModelTransform` records the arguments from which `SetTransformations`
builds the model matrix (the matrix is a pure function of them). -/
inductive GLEvent where
  | setModelTransform (scale : Vec3) (rx ry rz : ℚ) (pos : Vec3)
  | setUseTexture (b : Bool)
  | setObjectColor (r g b a : ℚ)
  | setSamplerSlot (slot : Int)
  | setUVScale (u v : ℚ)
  | setMaterialDiffuse (c : Vec3)
  | setMaterialSpecular (c : Vec3)
  | setMaterialShininess (v : ℚ)
  | draw (d : DrawCall)
deriving DecidableEq

/-- `SceneManager::SetTransformations` (SceneManager.cpp:247-277): pushes
the model matrix built from scale, the three rotation angles (degrees)
and position. -/
def SetTransformations (scaleXYZ : Vec3) (rx ry rz : ℚ) (positionXYZ : Vec3) :
    List GLEvent :=
  [.setModelTransform scaleXYZ rx ry rz positionXYZ]

/-- `SceneManager::SetShaderColor` (SceneManager.cpp:285-304). -/
def SetShaderColor (r g b a : ℚ) : List GLEvent :=
  [.setUseTexture false, .setObjectColor r g b a]

/-- `SceneManager::SetShaderTexture` (SceneManager.cpp:312-323): enables
texturing and pushes the slot found by `FindTextureSlot`. -/
def SetShaderTexture (texs : List TEXTURE_INFO) (textureTag : String) :
    List GLEvent :=
  [.setUseTexture true, .setSamplerSlot (FindTextureSlot texs textureTag)]

/-- `SceneManager::SetTextureUVScale` (SceneManager.cpp:331-337). -/
def SetTextureUVScale (u v : ℚ) : List GLEvent :=
  [.setUVScale u v]

/-- `SceneManager::SetShaderMaterial` (SceneManager.cpp:345-361): when the
material registry is non-empty it calls `FindMaterial` on a local
`OBJECT_MATERIAL` (default-constructed, hence indeterminate: modelled by
the parameter `m0`) and, when that returns `true`, pushes the local's
diffuse/specular/shininess. -/
def SetShaderMaterial (mats : List OBJECT_MATERIAL) (materialTag : String)
    (m0 : OBJECT_MATERIAL) : List GLEvent :=
  if mats.length > 0 then
    let r := FindMaterial mats materialTag m0
    if r.1 then
      [.setMaterialDiffuse r.2.diffuseColor,
       .setMaterialSpecular r.2.specularColor,
       .setMaterialShininess r.2.shininess]
    else []
  else []

/-- `SceneManager::LoadLamp` (SceneManager.cpp:519-737): lamp shade,
two shade rims, base pole and three legs, each a constant transform whose
position is offset by the arguments. -/
def LoadLamp (xPosition yPosition zPosition : ℚ) (m0 : OBJECT_MATERIAL)
    (s : SceneState) : List GLEvent :=
  -- Lamp Shade
  SetTransformations ⟨0.75, 1.0, 0.75⟩ 0 0 0
      ⟨-4.2 + xPosition, 5.3 + yPosition, -1.6 + zPosition⟩
  ++ SetTextureUVScale 4 1
  ++ SetShaderTexture s.textureIDs "lamp-shade"
  ++ SetShaderMaterial s.objectMaterials "cloth" m0
  ++ [.draw (.taperedCylinder false false true)]
  -- metal shade rim top
  ++ SetTransformations ⟨0.35, 0.35, 0.1⟩ 90 0 0
      ⟨-4.20 + xPosition, 6.3 + yPosition, -1.6 + zPosition⟩
  ++ SetTextureUVScale 4 1
  ++ SetShaderTexture s.textureIDs "lamp-rim"
  ++ SetShaderMaterial s.objectMaterials "metal" m0
  ++ [.draw .torus]
  -- metal shade rim bottom
  ++ SetTransformations ⟨0.65, 0.65, 0.1⟩ 90 0 0
      ⟨-4.20 + xPosition, 5.3 + yPosition, -1.6 + zPosition⟩
  ++ SetTextureUVScale 4 1
  ++ SetShaderTexture s.textureIDs "lamp-rim"
  ++ SetShaderMaterial s.objectMaterials "metal" m0
  ++ [.draw .torus]
  -- metal lamp base
  ++ SetTransformations ⟨0.05, 0.75, 0.05⟩ 0 0 0
      ⟨-4.20 + xPosition, 4.85 + yPosition, -1.6 + zPosition⟩
  ++ SetTextureUVScale 4 1
  ++ SetShaderTexture s.textureIDs "lamp-rim"
  ++ SetShaderMaterial s.objectMaterials "metal" m0
  ++ [.draw .cylinder]
  -- metal lamp leg (X 160, Y 0)
  ++ SetTransformations ⟨0.025, 1.0, 0.025⟩ 160 0 0
      ⟨-4.20 + xPosition, 4.85 + yPosition, -1.6 + zPosition⟩
  ++ SetTextureUVScale 4 1
  ++ SetShaderTexture s.textureIDs "lamp-rim"
  ++ SetShaderMaterial s.objectMaterials "metal" m0
  ++ [.draw .cylinder]
  -- metal lamp leg (X 160, Y 120)
  ++ SetTransformations ⟨0.025, 1.0, 0.025⟩ 160 120 0
      ⟨-4.20 + xPosition, 4.85 + yPosition, -1.6 + zPosition⟩
  ++ SetTextureUVScale 4 1
  ++ SetShaderTexture s.textureIDs "lamp-rim"
  ++ SetShaderMaterial s.objectMaterials "metal" m0
  ++ [.draw .cylinder]
  -- metal lamp leg (X 160, Y 240)
  ++ SetTransformations ⟨0.025, 1.0, 0.025⟩ 160 240 0
      ⟨-4.20 + xPosition, 4.85 + yPosition, -1.6 + zPosition⟩
  ++ SetTextureUVScale 4 1
  ++ SetShaderTexture s.textureIDs "lamp-rim"
  ++ SetShaderMaterial s.objectMaterials "metal" m0
  ++ [.draw .cylinder]

/-- `SceneManager::LoadMonitor` (SceneManager.cpp:742-1126): screen
center, four bezel bars, four corner cylinders, two stand boxes, the
stand attachment cylinder and the back panel plane. -/
def LoadMonitor (xPosition yPosition zPosition : ℚ) (m0 : OBJECT_MATERIAL)
    (s : SceneState) : List GLEvent :=
  -- Center of monitor
  SetTransformations ⟨3.0, 2.0, 0.25⟩ 0 0 0
      ⟨0.0 + xPosition, 4.068 + yPosition, 5.005 + zPosition⟩
  ++ SetTextureUVScale 4 1
  ++ SetShaderColor 0.1 0.1 0.1 1
  ++ SetShaderMaterial s.objectMaterials "plastic" m0
  ++ [.draw .box]
  -- Bottom of monitor
  ++ SetTransformations ⟨3.0, 0.25, 0.25⟩ 0 0 0
      ⟨0.0 + xPosition, 3.0 + yPosition, 5.0 + zPosition⟩
  ++ SetTextureUVScale 4 1
  ++ SetShaderTexture s.textureIDs "plastic"
  ++ SetShaderMaterial s.objectMaterials "plastic" m0
  ++ [.draw .box]
  -- Top part of monitor
  ++ SetTransformations ⟨3.0, 0.25, 0.25⟩ 0 0 0
      ⟨0.0 + xPosition, 5.0 + yPosition, 5.0 + zPosition⟩
  ++ SetTextureUVScale 4 1
  ++ SetShaderTexture s.textureIDs "plastic"
  ++ SetShaderMaterial s.objectMaterials "plastic" m0
  ++ [.draw .box]
  -- Right part of monitor
  ++ SetTransformations ⟨0.25, 1.9, 0.25⟩ 0 0 0
      ⟨1.5 + xPosition, 4.0 + yPosition, 5.0 + zPosition⟩
  ++ SetTextureUVScale 4 1
  ++ SetShaderTexture s.textureIDs "plastic"
  ++ SetShaderMaterial s.objectMaterials "plastic" m0
  ++ [.draw .box]
  -- Left part of monitor
  ++ SetTransformations ⟨0.25, 1.9, 0.25⟩ 0 0 0
      ⟨-1.49 + xPosition, 4.0 + yPosition, 5.0 + zPosition⟩
  ++ SetTextureUVScale 4 1
  ++ SetShaderTexture s.textureIDs "plastic"
  ++ SetShaderMaterial s.objectMaterials "plastic" m0
  ++ [.draw .box]
  -- Top Left Corner part of monitor
  ++ SetTransformations ⟨0.15, 0.25, 0.25⟩ 90 0 0
      ⟨-1.47 + xPosition, 4.878 + yPosition, 4.875 + zPosition⟩
  ++ SetTextureUVScale 4 1
  ++ SetShaderTexture s.textureIDs "plastic"
  ++ SetShaderMaterial s.objectMaterials "plastic" m0
  ++ [.draw .cylinder]
  -- Bottom Left Corner part of monitor
  ++ SetTransformations ⟨0.15, 0.25, 0.25⟩ 90 0 0
      ⟨-1.47 + xPosition, 3.12 + yPosition, 4.87 + zPosition⟩
  ++ SetTextureUVScale 4 1
  ++ SetShaderTexture s.textureIDs "plastic"
  ++ SetShaderMaterial s.objectMaterials "plastic" m0
  ++ [.draw .cylinder]
  -- Bottom Right Corner part of monitor
  ++ SetTransformations ⟨0.15, 0.25, 0.25⟩ 90 0 0
      ⟨1.4825 + xPosition, 3.125 + yPosition, 4.87 + zPosition⟩
  ++ SetTextureUVScale 4 1
  ++ SetShaderTexture s.textureIDs "plastic"
  ++ SetShaderMaterial s.objectMaterials "plastic" m0
  ++ [.draw .cylinder]
  -- Top Right Corner part of monitor
  ++ SetTransformations ⟨0.15, 0.25, 0.25⟩ 90 0 0
      ⟨1.4825 + xPosition, 4.878 + yPosition, 4.87 + zPosition⟩
  ++ SetTextureUVScale 4 1
  ++ SetShaderTexture s.textureIDs "plastic"
  ++ SetShaderMaterial s.objectMaterials "plastic" m0
  ++ [.draw .cylinder]
  -- Bottom part of monitor stand
  ++ SetTransformations ⟨1.0, 0.05, 1.0⟩ 0 0 0
      ⟨0.0 + xPosition, 2.55 + yPosition, 5.0 + zPosition⟩
  ++ SetTextureUVScale 4 1
  ++ SetShaderTexture s.textureIDs "plastic"
  ++ SetShaderMaterial s.objectMaterials "plastic" m0
  ++ [.draw .box]
  -- vertical part of monitor stand
  ++ SetTransformations ⟨1.0, 0.05, 1.0⟩ (-65) 0 0
      ⟨0.0 + xPosition, 3.025 + yPosition, 4.735 + zPosition⟩
  ++ SetTextureUVScale 4 1
  ++ SetShaderTexture s.textureIDs "plastic"
  ++ SetShaderMaterial s.objectMaterials "plastic" m0
  ++ [.draw .box]
  -- Cylinder attachment to both parts of monitor stand
  ++ SetTransformations ⟨0.03, 1.0, 0.03⟩ 0 0 90
      ⟨0.5 + xPosition, 2.575 + yPosition, 4.53 + zPosition⟩
  ++ SetTextureUVScale 4 1
  ++ SetShaderTexture s.textureIDs "plastic"
  ++ SetShaderMaterial s.objectMaterials "plastic" m0
  ++ [.draw .cylinder]
  -- Plane to act as back panel of monitor
  ++ SetTransformations ⟨1.55, 1.2, 1.0⟩ 90 0 0
      ⟨0.0 + xPosition, 4.0 + yPosition, 4.855 + zPosition⟩
  ++ SetTextureUVScale 4 1
  ++ SetShaderTexture s.textureIDs "plastic"
  ++ SetShaderMaterial s.objectMaterials "plastic" m0
  ++ [.draw .plane]

/-- `SceneManager::GenerateKeyCap` (SceneManager.cpp:1218-1256): a single
key cap box at a constant base position plus the offset arguments. -/
def GenerateKeyCap (xPosition yPosition zPosition : ℚ) (m0 : OBJECT_MATERIAL)
    (s : SceneState) : List GLEvent :=
  SetTransformations ⟨0.075, 0.075, 0.025⟩ (-80) 0 0
      ⟨-0.9 + xPosition, 4.12 + yPosition, 4.85 + zPosition⟩
  ++ SetTextureUVScale 4 1
  ++ SetShaderTexture s.textureIDs "plastic"
  ++ SetShaderMaterial s.objectMaterials "plastic" m0
  ++ [.draw .box]

/-- `SceneManager::LoadKeyboard` (SceneManager.cpp:1131-1216): keyboard
base, a 3x19 grid of key caps, and the stand.  The source loop advances
`keySpace` by 0.1 per key, and per row subtracts 0.025 from `yMod` and
adds 0.15 to `zMod`; at iteration (j, i) those accumulators hold
`i * 0.1`, `j * -0.025` and `j * 0.15`. -/
def LoadKeyboard (xPosition yPosition zPosition : ℚ) (m0 : OBJECT_MATERIAL)
    (s : SceneState) : List GLEvent :=
  -- Base of Keyboard
  SetTransformations ⟨2.0, 0.5, 0.05⟩ (-80) 0 0
      ⟨0.0 + xPosition, 4.068 + yPosition, 5.005 + zPosition⟩
  ++ SetTextureUVScale 4 1
  ++ SetShaderTexture s.textureIDs "plastic"
  ++ SetShaderMaterial s.objectMaterials "plastic" m0
  ++ [.draw .box]
  -- Generate All Keycaps
  ++ (List.range 3).flatMap (fun j =>
      (List.range 19).flatMap (fun i =>
        GenerateKeyCap (xPosition + i * 0.1) (yPosition + j * (-0.025))
          (zPosition + j * 0.15) m0 s))
  -- Keyboard stand
  ++ SetTransformations ⟨2.0, 0.15, 0.005⟩ (-120) 0 0
      ⟨0.0 + xPosition, 4.068 + yPosition, 4.8 + zPosition⟩
  ++ SetTextureUVScale 4 1
  ++ SetShaderTexture s.textureIDs "plastic"
  ++ SetShaderMaterial s.objectMaterials "plastic" m0
  ++ [.draw .box]

/-- `SceneManager::LoadMouse` (SceneManager.cpp:1262-1329): mouse body
sphere and half-torus wheel. -/
def LoadMouse (xPosition yPosition zPosition : ℚ) (m0 : OBJECT_MATERIAL)
    (s : SceneState) : List GLEvent :=
  -- Base of Mouse
  SetTransformations ⟨0.15, 0.25, 0.1⟩ 90 0 0
      ⟨-0.9 + xPosition, 4.12 + yPosition, 4.85 + zPosition⟩
  ++ SetTextureUVScale 4 1
  ++ SetShaderTexture s.textureIDs "plastic"
  ++ SetShaderMaterial s.objectMaterials "plastic" m0
  ++ [.draw .sphere]
  -- Mouse Wheel
  ++ SetTransformations ⟨0.1, 0.08, 0.2⟩ 0 90 0
      ⟨-0.9 + xPosition, 4.14 + yPosition, 4.75 + zPosition⟩
  ++ SetTextureUVScale 4 1
  ++ SetShaderTexture s.textureIDs "plastic"
  ++ SetShaderMaterial s.objectMaterials "plastic" m0
  ++ [.draw .halfTorus]

/-- `SceneManager::LoadPhone` (SceneManager.cpp:1335-1610): four edge
boxes, four corner cylinders and the screen box. -/
def LoadPhone (xPosition yPosition zPosition : ℚ) (m0 : OBJECT_MATERIAL)
    (s : SceneState) : List GLEvent :=
  -- Left Part of Phone
  SetTransformations ⟨0.1, 0.03, 0.5⟩ 0 0 0
      ⟨-0.9 + xPosition, 4.12 + yPosition, 4.85 + zPosition⟩
  ++ SetTextureUVScale 4 1
  ++ SetShaderTexture s.textureIDs "plastic"
  ++ SetShaderMaterial s.objectMaterials "plastic" m0
  ++ [.draw .box]
  -- Right part of Phone
  ++ SetTransformations ⟨0.1, 0.03, 0.5⟩ 0 0 0
      ⟨-0.5 + xPosition, 4.12 + yPosition, 4.85 + zPosition⟩
  ++ SetTextureUVScale 4 1
  ++ SetShaderTexture s.textureIDs "plastic"
  ++ SetShaderMaterial s.objectMaterials "plastic" m0
  ++ [.draw .box]
  -- Top part of Phone
  ++ SetTransformations ⟨0.4, 0.03, 0.1⟩ 0 0 0
      ⟨-0.7 + xPosition, 4.12 + yPosition, 4.585 + zPosition⟩
  ++ SetTextureUVScale 4 1
  ++ SetShaderTexture s.textureIDs "plastic"
  ++ SetShaderMaterial s.objectMaterials "plastic" m0
  ++ [.draw .box]
  -- Bottom Part of Phone
  ++ SetTransformations ⟨0.4, 0.03, 0.1⟩ 0 0 0
      ⟨-0.7 + xPosition, 4.12 + yPosition, 5.1 + zPosition⟩
  ++ SetTextureUVScale 4 1
  ++ SetShaderTexture s.textureIDs "plastic"
  ++ SetShaderMaterial s.objectMaterials "plastic" m0
  ++ [.draw .box]
  -- Bottom Left part of Phone
  ++ SetTransformations ⟨0.05, 0.03, 0.05⟩ 0 0 0
      ⟨-0.9 + xPosition, 4.10 + yPosition, 5.1 + zPosition⟩
  ++ SetTextureUVScale 4 1
  ++ SetShaderTexture s.textureIDs "plastic"
  ++ SetShaderMaterial s.objectMaterials "plastic" m0
  ++ [.draw .cylinder]
  -- Top Left part of Phone
  ++ SetTransformations ⟨0.05, 0.03, 0.05⟩ 0 0 0
      ⟨-0.9010 + xPosition, 4.10 + yPosition, 4.5875 + zPosition⟩
  ++ SetTextureUVScale 4 1
  ++ SetShaderTexture s.textureIDs "plastic"
  ++ SetShaderMaterial s.objectMaterials "plastic" m0
  ++ [.draw .cylinder]
  -- Top Right part of Phone
  ++ SetTransformations ⟨0.05, 0.03, 0.05⟩ 0 0 0
      ⟨-0.50 + xPosition, 4.10 + yPosition, 4.59 + zPosition⟩
  ++ SetTextureUVScale 4 1
  ++ SetShaderTexture s.textureIDs "plastic"
  ++ SetShaderMaterial s.objectMaterials "plastic" m0
  ++ [.draw .cylinder]
  -- Bottom Right part of Phone
  ++ SetTransformations ⟨0.05, 0.03, 0.05⟩ 0 0 0
      ⟨-0.50 + xPosition, 4.10 + yPosition, 5.1 + zPosition⟩
  ++ SetTextureUVScale 4 1
  ++ SetShaderTexture s.textureIDs "plastic"
  ++ SetShaderMaterial s.objectMaterials "plastic" m0
  ++ [.draw .cylinder]
  -- Screen of Phone
  ++ SetTransformations ⟨0.4, 0.025, 0.55⟩ 0 0 0
      ⟨-0.70 + xPosition, 4.125 + yPosition, 4.85 + zPosition⟩
  ++ SetTextureUVScale 4 1
  ++ SetShaderColor 0.2 0.2 0.2 1
  ++ SetShaderMaterial s.objectMaterials "plastic" m0
  ++ [.draw .box]

/-- `SceneManager::LoadBook` (SceneManager.cpp:1615-1745): two covers,
spine and pages; the rotation offset arguments are added to each part's
constant rotation, the position offsets to each part's constant position. -/
def LoadBook (xPosition yPosition zPosition xRotation yRotation zRotation : ℚ)
    (m0 : OBJECT_MATERIAL) (s : SceneState) : List GLEvent :=
  -- Left book cover
  SetTransformations ⟨0.05, 1.2, 1.0⟩
      (0.0 + xRotation) (0.0 + yRotation) (0.0 + zRotation)
      ⟨-0.2 + xPosition, 4.3 + yPosition, 4.85 + zPosition⟩
  ++ SetTextureUVScale 1 1
  ++ SetShaderTexture s.textureIDs "BookBack"
  ++ SetShaderMaterial s.objectMaterials "BookCover" m0
  ++ [.draw .box]
  -- right book cover
  ++ SetTransformations ⟨0.05, 1.2, 1.0⟩
      (0.0 + xRotation) (0.0 + yRotation) (0.0 + zRotation)
      ⟨0.0 + xPosition, 4.3 + yPosition, 4.85 + zPosition⟩
  ++ SetTextureUVScale 1 1
  ++ SetShaderTexture s.textureIDs "BookFront"
  ++ SetShaderMaterial s.objectMaterials "BookCover" m0
  ++ [.draw .box]
  -- Book Spine
  ++ SetTransformations ⟨0.25, 1.2, 0.05⟩
      (0.0 + xRotation) (0.0 + yRotation) (0.0 + zRotation)
      ⟨-0.1025 + xPosition, 4.3 + yPosition, 5.330 + zPosition⟩
  ++ SetTextureUVScale 1 1
  ++ SetShaderTexture s.textureIDs "BookSpine"
  ++ SetShaderMaterial s.objectMaterials "BookCover" m0
  ++ [.draw .box]
  -- Book Pages
  ++ SetTransformations ⟨0.17, 1.1, 0.95⟩
      (0.0 + xRotation) (0.0 + yRotation) (0.0 + zRotation)
      ⟨-0.09 + xPosition, 4.3 + yPosition, 4.85 + zPosition⟩
  ++ SetTextureUVScale 1 1
  ++ SetShaderTexture s.textureIDs "Pages"
  ++ SetShaderMaterial s.objectMaterials "BookCover" m0
  ++ [.draw .box]

/-- Vector-valued fields of a `pointLights[i]` shader uniform block. -/
inductive LightField where
  | position
  | ambient
  | diffuse
  | specular
deriving DecidableEq

/-- A shader-uniform assignment made by `SetupSceneLights`:
`enableLighting b` models `setBoolValue("bUseLighting", b)`,
`setLightVec3 i f v` models `setVec3Value("pointLights[i].f", v)` and
`setLightActive i b` models `setBoolValue("pointLights[i].bActive", b)`. -/
inductive LightEvent where
  | enableLighting (b : Bool)
  | setLightVec3 (slot : Nat) (field : LightField) (v : Vec3)
  | setLightActive (slot : Nat) (b : Bool)
deriving DecidableEq

/-- `SceneManager::SetupSceneLights` (SceneManager.cpp:1754-1799): the
straight-line sequence of uniform assignments it performs. -/
def SetupSceneLights : List LightEvent :=
  [.enableLighting true,
   .setLightVec3 0 .position ⟨0.0, 20.0, 20.0⟩,
   .setLightVec3 0 .ambient ⟨0.1, 0.1, 0.1⟩,
   .setLightVec3 0 .diffuse ⟨0.4, 0.4, 0.4⟩,
   .setLightVec3 0 .specular ⟨0.01, 0.01, 0.01⟩,
   .setLightActive 0 true,
   .setLightVec3 1 .position ⟨-4.0, 5.5, -2.5⟩,
   .setLightVec3 1 .ambient ⟨0.4, 0.4, 0.4⟩,
   .setLightVec3 1 .diffuse ⟨0.5, 0.5, 0.5⟩,
   .setLightVec3 1 .specular ⟨0.01, 0.01, 0.01⟩,
   .setLightActive 1 true,
   .setLightVec3 2 .position ⟨-6.0, 5.5, -1.5⟩,
   .setLightVec3 2 .ambient ⟨0.4, 0.4, 0.4⟩,
   .setLightVec3 2 .diffuse ⟨0.5, 0.5, 0.5⟩,
   .setLightVec3 2 .specular ⟨0.01, 0.01, 0.01⟩,
   .setLightActive 2 true]

/-- The point-light slot an event of `SetupSceneLights` touches, if any. -/
def lightSlotOf : LightEvent → Option Nat
  | .enableLighting _ => none
  | .setLightVec3 slot _ _ => some slot
  | .setLightActive slot _ => some slot

/-- Whether an event assigns the given vector field of the given slot. -/
def setsLightField (slot : Nat) (field : LightField) : LightEvent → Bool
  | .setLightVec3 slot2 field2 _ => slot == slot2 && field == field2
  | _ => false

/-- The mesh-generation operations of the `ShapeMeshes` library that
`SceneManager::PrepareScene` can call. -/
inductive MeshLoadOp where
  | loadPlaneMesh
  | loadTaperedCylinderMesh
  | loadTorusMesh
  | loadBoxMesh
  | loadCylinderMesh
  | loadSphereMesh
deriving DecidableEq

/-- The mesh-load calls `SceneManager::PrepareScene`
(SceneManager.cpp:1807-1826) performs, in source order. -/
def PrepareSceneMeshLoads : List MeshLoadOp :=
  [.loadPlaneMesh, .loadTaperedCylinderMesh, .loadTorusMesh,
   .loadBoxMesh, .loadCylinderMesh, .loadSphereMesh]

/-- Modelled from the spec: the `ShapeMeshes` primitive-mesh library is an
external collaborator whose source is not under `src/`.  Per the spec each
primitive mesh is "generated once and reused across multiple draw calls";
`DrawBoxMeshSide` renders a side of the box mesh created by `LoadBoxMesh`,
and `DrawHalfTorusMesh` (the half-torus primitive) renders half of the
torus mesh created by `LoadTorusMesh`.  This function maps each draw call
to the mesh-generation operation that creates the mesh it renders. -/
def meshLoadOf : DrawCall → MeshLoadOp
  | .plane => .loadPlaneMesh
  | .box => .loadBoxMesh
  | .boxSide _ => .loadBoxMesh
  | .cylinder => .loadCylinderMesh
  | .taperedCylinder _ _ _ => .loadTaperedCylinderMesh
  | .torus => .loadTorusMesh
  | .halfTorus => .loadTorusMesh
  | .sphere => .loadSphereMesh

/-- The draw calls occurring in a trace, in order. -/
def drawsOf (evs : List GLEvent) : List DrawCall :=
  evs.filterMap fun e =>
    match e with
    | .draw d => some d
    | _ => none

/-- `SceneManager::RenderScene` (SceneManager.cpp:1834-2218): the full
sequence of shader-uniform assignments and draw calls, as a function of
the registry state `s` (and of `m0`, the indeterminate contents of the
default-constructed local `OBJECT_MATERIAL` inside `SetShaderMaterial`).
The book loop advances `BookSpacer` from 2.0 by 0.25 per iteration, so
iteration `i` uses `2.0 + i * 0.25`. -/
def RenderScene (m0 : OBJECT_MATERIAL) (s : SceneState) : List GLEvent :=
  -- floor plane
  SetTransformations ⟨20.0, 1.0, 10.0⟩ 0 0 0 ⟨0.0, 0.0, 7.0⟩
  ++ SetShaderColor 1 1 1 1
  ++ SetShaderTexture s.textureIDs "WoodFloor"
  ++ SetTextureUVScale 4 2
  ++ SetShaderMaterial s.objectMaterials "woodFloor" m0
  ++ [.draw .plane]
  -- wall plane
  ++ SetTransformations ⟨20.0, 1.0, 5.0⟩ 90 0 0 ⟨0.0, 5.0, -3.0⟩
  ++ SetShaderTexture s.textureIDs "wall"
  ++ SetShaderMaterial s.objectMaterials "wall" m0
  ++ [.draw .plane]
  -- Draw Coffee Cup Base
  ++ SetTransformations ⟨0.25, 0.5, 0.25⟩ 180 0 0 ⟨-3.75, 4.45, 1.0⟩
  ++ SetShaderTexture s.textureIDs "cup"
  ++ SetTextureUVScale 2 2
  ++ SetShaderMaterial s.objectMaterials "porcelain" m0
  ++ [.draw (.taperedCylinder true false true)]
  -- Draw Coffee Cup Handle
  ++ SetTransformations ⟨0.13, 0.15, 0.13⟩ 90 (-8) 90 ⟨-3.75, 4.22, 1.17⟩
  ++ SetShaderTexture s.textureIDs "cup"
  ++ SetTextureUVScale 2 2
  ++ SetShaderMaterial s.objectMaterials "porcelain" m0
  ++ [.draw .halfTorus]
  -- Draw Desk Tabletop
  ++ SetTransformations ⟨10.0, 0.5, 5.0⟩ 0 0 0 ⟨-0.4, 3.65, 0.0⟩
  ++ SetShaderMaterial s.objectMaterials "wood" m0
  ++ SetShaderTexture s.textureIDs "table-top"
  ++ SetTextureUVScale 1 0.75
  ++ [.draw (.boxSide .top)]
  ++ SetShaderTexture s.textureIDs "table-side"
  ++ SetTextureUVScale 2 0.25
  ++ [.draw (.boxSide .left), .draw (.boxSide .right)]
  ++ SetTextureUVScale 4 0.25
  ++ [.draw (.boxSide .back), .draw (.boxSide .front), .draw (.boxSide .bottom)]
  -- Draw the steel base underneath the wooden desk tabletop
  ++ SetTransformations ⟨9.5, 0.5, 4.5⟩ 0 0 0 ⟨-0.4, 3.2, 0.0⟩
  ++ SetShaderTexture s.textureIDs "base"
  ++ SetShaderMaterial s.objectMaterials "metal" m0
  ++ SetTextureUVScale 4 1
  ++ [.draw (.boxSide .back), .draw (.boxSide .front), .draw (.boxSide .bottom)]
  ++ SetTextureUVScale 2 0.5
  ++ [.draw (.boxSide .left), .draw (.boxSide .right)]
  -- Draw Left Lower connecting beam
  ++ SetTransformations ⟨4.5, 0.5, 0.25⟩ 0 90 0 ⟨-5.025, 0.75, 0.0⟩
  ++ SetTextureUVScale 2 1
  ++ SetShaderMaterial s.objectMaterials "metal" m0
  ++ [.draw .box]
  -- Draw right lower connecting beam
  ++ SetTransformations ⟨4.5, 0.5, 0.25⟩ 0 90 0 ⟨4.21, 0.75, 0.0⟩
  ++ SetTextureUVScale 2 1
  ++ SetShaderMaterial s.objectMaterials "metal" m0
  ++ [.draw .box]
  -- Back Right Leg
  ++ SetTransformations ⟨3.0, 0.25, 0.5⟩ 0 0 90 ⟨4.21, 1.52, -2.0⟩
  ++ SetTextureUVScale 4 1
  ++ SetShaderMaterial s.objectMaterials "metal" m0
  ++ [.draw .box]
  -- Front Right Leg
  ++ SetTransformations ⟨3.0, 0.25, 0.5⟩ 0 0 90 ⟨4.21, 1.52, 2.0⟩
  ++ SetTextureUVScale 4 1
  ++ SetShaderMaterial s.objectMaterials "metal" m0
  ++ [.draw .box]
  -- Front Left Leg
  ++ SetTransformations ⟨3.0, 0.25, 0.5⟩ 0 0 90 ⟨-5.025, 1.52, 2.0⟩
  ++ SetTextureUVScale 4 1
  ++ SetShaderMaterial s.objectMaterials "metal" m0
  ++ [.draw .box]
  -- Back Left Leg
  ++ SetTransformations ⟨3.0, 0.25, 0.5⟩ 0 0 90 ⟨-5.025, 1.52, -2.0⟩
  ++ SetTextureUVScale 4 1
  ++ SetShaderMaterial s.objectMaterials "metal" m0
  ++ [.draw .box]
  -- Load Lamp in a little to the left and back to match the scene
  ++ LoadLamp 0.25 0 (-0.2) m0 s
  -- load in the monitor
  ++ LoadMonitor (-0.5) 1.4 (-6.5) m0 s
  -- Load in Keyboard
  ++ LoadKeyboard (-0.5) 0 (-3.5) m0 s
  -- Load in Mouse
  ++ LoadMouse 2 (-0.1) (-3.4) m0 s
  -- Load in Phone
  ++ LoadPhone 2.7 0 (-3.9) m0 s
  -- Load in Books
  ++ (List.range 8).flatMap (fun i =>
      LoadBook (2.0 + i * 0.25) 0.25 (-6.35) 0 0 0 m0 s)
  ++ LoadBook 1.68 0.25 (-6.35) 0 0 (-7.5) m0 s

/-- Adds an offset to the position of a model-transform event, leaving
scale, rotation and every other event unchanged. -/
def shiftPos (dx dy dz : ℚ) : GLEvent → GLEvent
  | .setModelTransform sc rx ry rz p =>
    .setModelTransform sc rx ry rz ⟨p.x + dx, p.y + dy, p.z + dz⟩
  | e => e

/-- Adds an offset to the position and the rotation of a model-transform
event, leaving scale and every other event unchanged. -/
def shiftPosRot (dx dy dz drx dry drz : ℚ) : GLEvent → GLEvent
  | .setModelTransform sc rx ry rz p =>
    .setModelTransform sc (rx + drx) (ry + dry) (rz + drz)
      ⟨p.x + dx, p.y + dy, p.z + dz⟩
  | e => e

/-- A concrete `OBJECT_MATERIAL` value, used to instantiate the
indeterminate local of `SetShaderMaterial` in witness statements. -/
def zeroMaterial : OBJECT_MATERIAL :=
  { diffuseColor := ⟨0, 0, 0⟩, specularColor := ⟨0, 0, 0⟩, shininess := 0, tag := "" }

/-- The draw calls `RenderScene` issues, in order: floor and wall planes,
coffee cup, desk (six textured tabletop sides, five base sides, two beams,
four legs), lamp, monitor, keyboard (base, 57 key caps, stand), mouse,
phone and nine books. -/
def RenderSceneDrawList : List DrawCall :=
  [.plane, .plane, .taperedCylinder true false true, .halfTorus,
   .boxSide .top, .boxSide .left, .boxSide .right,
   .boxSide .back, .boxSide .front, .boxSide .bottom,
   .boxSide .back, .boxSide .front, .boxSide .bottom,
   .boxSide .left, .boxSide .right]
  ++ List.replicate 6 .box
  ++ [.taperedCylinder false false true, .torus, .torus,
      .cylinder, .cylinder, .cylinder, .cylinder]
  ++ [.box, .box, .box, .box, .box,
      .cylinder, .cylinder, .cylinder, .cylinder,
      .box, .box, .cylinder, .plane]
  ++ List.replicate 59 .box
  ++ [.sphere, .halfTorus]
  ++ [.box, .box, .box, .box,
      .cylinder, .cylinder, .cylinder, .cylinder, .box]
  ++ List.replicate 36 .box

theorem FindTextureID_of_no_match (l : List TEXTURE_INFO) (tag : String)
    (h : ∀ e ∈ l, e.tag ≠ tag) : FindTextureID l tag = -1 := by
  induction l with
  | nil => rfl
  | cons e rest ih =>
    simp only [FindTextureID, if_neg (h e (List.mem_cons_self e rest))]
    exact ih fun x hx => h x (List.mem_cons_of_mem e hx)

theorem FindTextureSlotLoop_of_no_match (l : List TEXTURE_INFO) (tag : String)
    (h : ∀ e ∈ l, e.tag ≠ tag) (st : Int) : FindTextureSlotLoop l tag st = -1 := by
  induction l generalizing st with
  | nil => rfl
  | cons e rest ih =>
    simp only [FindTextureSlotLoop, if_neg (h e (List.mem_cons_self e rest))]
    exact ih (fun x hx => h x (List.mem_cons_of_mem e hx)) (st + 1)

theorem FindTextureID_of_first_match (l : List TEXTURE_INFO) (tag : String) :
    ∀ (j : Nat) (hj : j < l.length), (l.get ⟨j, hj⟩).tag = tag →
    (∀ (i : Nat) (hi : i < j), (l.get ⟨i, hi.trans hj⟩).tag ≠ tag) →
    FindTextureID l tag = (l.get ⟨j, hj⟩).ID := by
  induction l with
  | nil => intro j hj; exact absurd hj (Nat.not_lt_zero j)
  | cons e rest ih =>
    intro j hj hmatch hmin
    cases j with
    | zero => simp_all [FindTextureID]
    | succ k =>
      have h0 : e.tag ≠ tag := by simpa using hmin 0 (Nat.succ_pos k)
      simp only [FindTextureID, if_neg h0]
      exact ih k (Nat.lt_of_succ_lt_succ hj) (by simpa using hmatch)
        (fun i hi => by simpa using hmin (i + 1) (Nat.succ_lt_succ hi))

theorem FindTextureSlotLoop_of_first_match (l : List TEXTURE_INFO) (tag : String) :
    ∀ (j : Nat) (hj : j < l.length), (l.get ⟨j, hj⟩).tag = tag →
    (∀ (i : Nat) (hi : i < j), (l.get ⟨i, hi.trans hj⟩).tag ≠ tag) →
    ∀ st : Int, FindTextureSlotLoop l tag st = st + j := by
  induction l with
  | nil => intro j hj; exact absurd hj (Nat.not_lt_zero j)
  | cons e rest ih =>
    intro j hj hmatch hmin st
    cases j with
    | zero => simp_all [FindTextureSlotLoop]
    | succ k =>
      have h0 : e.tag ≠ tag := by simpa using hmin 0 (Nat.succ_pos k)
      simp only [FindTextureSlotLoop, if_neg h0]
      rw [ih k (Nat.lt_of_succ_lt_succ hj) (by simpa using hmatch)
        (fun i hi => by simpa using hmin (i + 1) (Nat.succ_lt_succ hi)) (st + 1)]
      push_cast
      ring

theorem FindMaterialLoop_of_no_match (l : List OBJECT_MATERIAL) (tag : String)
    (m : OBJECT_MATERIAL) (h : ∀ e ∈ l, e.tag ≠ tag) :
    FindMaterialLoop l tag m = m := by
  induction l with
  | nil => rfl
  | cons e rest ih =>
    simp only [FindMaterialLoop, if_neg (h e (List.mem_cons_self e rest))]
    exact ih fun x hx => h x (List.mem_cons_of_mem e hx)

theorem FindMaterialLoop_of_first_match (l : List OBJECT_MATERIAL) (tag : String)
    (m : OBJECT_MATERIAL) :
    ∀ (j : Nat) (hj : j < l.length), (l.get ⟨j, hj⟩).tag = tag →
    (∀ (i : Nat) (hi : i < j), (l.get ⟨i, hi.trans hj⟩).tag ≠ tag) →
    FindMaterialLoop l tag m =
      { m with
        diffuseColor := (l.get ⟨j, hj⟩).diffuseColor
        specularColor := (l.get ⟨j, hj⟩).specularColor
        shininess := (l.get ⟨j, hj⟩).shininess } := by
  induction l with
  | nil => intro j hj; exact absurd hj (Nat.not_lt_zero j)
  | cons e rest ih =>
    intro j hj hmatch hmin
    cases j with
    | zero => simp_all [FindMaterialLoop]
    | succ k =>
      have h0 : e.tag ≠ tag := by simpa using hmin 0 (Nat.succ_pos k)
      simp only [FindMaterialLoop, if_neg h0]
      exact ih k (Nat.lt_of_succ_lt_succ hj) (by simpa using hmatch)
        (fun i hi => by simpa using hmin (i + 1) (Nat.succ_lt_succ hi))

/-- C1 counterexample: an image that is successfully read but has 2 color
channels makes `CreateGLTexture` return `false`, so the return value is
not equivalent to "the image file was successfully read". -/
theorem CreateGLTexture_not_true_iff_read :
    ¬ (((CreateGLTexture (some ⟨8, 8, 2⟩) 7 "gray"
          { textureIDs := [], objectMaterials := [] }).1 = true) ↔
        (some (⟨8, 8, 2⟩ : ImageInfo)).isSome = true) := by
  decide

/-- C1 (amended): `CreateGLTexture` returns `true` exactly when the image
file is successfully read and the decoded image has 3 or 4 color
channels; it returns `false` when the read fails or the channel count is
anything else. -/
theorem CreateGLTexture_true_iff (image : Option ImageInfo) (freshID : Int)
    (tag : String) (s : SceneState) :
    (CreateGLTexture image freshID tag s).1 = true ↔
      ∃ img, image = some img ∧
        (img.colorChannels = 3 ∨ img.colorChannels = 4) := by
  cases image with
  | none => simp [CreateGLTexture]
  | some img =>
    by_cases h : img.colorChannels = 3 ∨ img.colorChannels = 4 <;>
      simp [CreateGLTexture, h]

/-- C2: `FindTextureID` and `FindTextureSlot` are linear scans: when no
loaded texture has the tag both return -1, and when `j` is the first
index (in load order) whose entry's tag equals the argument,
`FindTextureID` returns that entry's GPU texture ID and `FindTextureSlot`
returns `j`. -/
theorem texture_lookup_first_match (l : List TEXTURE_INFO) (tag : String) :
    ((∀ e ∈ l, e.tag ≠ tag) →
      FindTextureID l tag = -1 ∧ FindTextureSlot l tag = -1)
    ∧ (∀ (j : Nat) (hj : j < l.length), (l.get ⟨j, hj⟩).tag = tag →
        (∀ (i : Nat) (hi : i < j), (l.get ⟨i, hi.trans hj⟩).tag ≠ tag) →
        FindTextureID l tag = (l.get ⟨j, hj⟩).ID ∧
        FindTextureSlot l tag = (j : Int)) := by
  constructor
  · intro h
    exact ⟨FindTextureID_of_no_match l tag h,
      FindTextureSlotLoop_of_no_match l tag h 0⟩
  · intro j hj hmatch hmin
    refine ⟨FindTextureID_of_first_match l tag j hj hmatch hmin, ?_⟩
    rw [FindTextureSlot, FindTextureSlotLoop_of_first_match l tag j hj hmatch hmin 0]
    ring

theorem texture_lookup_first_match_witness :
    FindTextureID [⟨5, "a"⟩, ⟨7, "b"⟩, ⟨9, "b"⟩] "b" = 7 ∧
    FindTextureSlot [⟨5, "a"⟩, ⟨7, "b"⟩, ⟨9, "b"⟩] "b" = 1 :=
  (texture_lookup_first_match [⟨5, "a"⟩, ⟨7, "b"⟩, ⟨9, "b"⟩] "b").2 1
    (by decide) (by decide)
    (fun i hi => by
      have h0 : i = 0 := Nat.lt_one_iff.mp hi
      subst h0
      simp)

/-- C3: when `j` is the first index of the material registry whose entry
has the given tag, `FindMaterial` copies that entry's diffuse color,
specular color and shininess into the out-parameter. -/
theorem FindMaterial_copies_first_match (mats : List OBJECT_MATERIAL)
    (tag : String) (m : OBJECT_MATERIAL) (j : Nat) (hj : j < mats.length)
    (hmatch : (mats.get ⟨j, hj⟩).tag = tag)
    (hmin : ∀ (i : Nat) (hi : i < j), (mats.get ⟨i, hi.trans hj⟩).tag ≠ tag) :
    (FindMaterial mats tag m).2.diffuseColor = (mats.get ⟨j, hj⟩).diffuseColor ∧
    (FindMaterial mats tag m).2.specularColor = (mats.get ⟨j, hj⟩).specularColor ∧
    (FindMaterial mats tag m).2.shininess = (mats.get ⟨j, hj⟩).shininess := by
  have hne : mats.length ≠ 0 := Nat.pos_iff_ne_zero.mp (Nat.lt_of_le_of_lt (Nat.zero_le j) hj)
  rw [FindMaterial, if_neg hne,
    FindMaterialLoop_of_first_match mats tag m j hj hmatch hmin]
  exact ⟨rfl, rfl, rfl⟩

theorem FindMaterial_copies_first_match_witness :
    (FindMaterial [⟨⟨1, 2, 3⟩, ⟨4, 5, 6⟩, 7, "wood"⟩, ⟨⟨8, 8, 8⟩, ⟨9, 9, 9⟩, 2, "wood"⟩]
        "wood" zeroMaterial).2.diffuseColor = ⟨1, 2, 3⟩ ∧
    (FindMaterial [⟨⟨1, 2, 3⟩, ⟨4, 5, 6⟩, 7, "wood"⟩, ⟨⟨8, 8, 8⟩, ⟨9, 9, 9⟩, 2, "wood"⟩]
        "wood" zeroMaterial).2.specularColor = ⟨4, 5, 6⟩ ∧
    (FindMaterial [⟨⟨1, 2, 3⟩, ⟨4, 5, 6⟩, 7, "wood"⟩, ⟨⟨8, 8, 8⟩, ⟨9, 9, 9⟩, 2, "wood"⟩]
        "wood" zeroMaterial).2.shininess = 7 :=
  FindMaterial_copies_first_match _ "wood" zeroMaterial 0 (by decide) (by decide)
    (fun i hi => absurd hi (Nat.not_lt_zero i))

/-- C4: `FindMaterial` returns `false` exactly when the material registry
is empty; on a non-empty registry it returns `true` even when no entry
carries the tag, leaving the out-parameter unchanged, and in that case
`SetShaderMaterial` pushes the unmodified local material to the shader. -/
theorem FindMaterial_nonempty_returns_true (mats : List OBJECT_MATERIAL)
    (tag : String) (m0 : OBJECT_MATERIAL) :
    ((FindMaterial mats tag m0).1 = false ↔ mats = [])
    ∧ (mats ≠ [] → (∀ e ∈ mats, e.tag ≠ tag) →
        (FindMaterial mats tag m0).1 = true
        ∧ (FindMaterial mats tag m0).2 = m0
        ∧ SetShaderMaterial mats tag m0 =
            [.setMaterialDiffuse m0.diffuseColor,
             .setMaterialSpecular m0.specularColor,
             .setMaterialShininess m0.shininess]) := by
  constructor
  · cases mats with
    | nil => simp [FindMaterial]
    | cons e rest => simp [FindMaterial]
  · intro hne hnom
    have hlen : mats.length ≠ 0 := fun h => hne (List.length_eq_zero.mp h)
    have h1 : (FindMaterial mats tag m0).1 = true := by
      rw [FindMaterial, if_neg hlen]
    have h2 : (FindMaterial mats tag m0).2 = m0 := by
      rw [FindMaterial, if_neg hlen]
      exact FindMaterialLoop_of_no_match mats tag m0 hnom
    refine ⟨h1, h2, ?_⟩
    rw [SetShaderMaterial, if_pos (Nat.pos_of_ne_zero hlen)]
    simp only [h1, if_pos, h2]

theorem FindMaterial_nonempty_returns_true_witness :
    (FindMaterial [⟨⟨1, 2, 3⟩, ⟨4, 5, 6⟩, 7, "wood"⟩] "metal" zeroMaterial).1 = true
    ∧ (FindMaterial [⟨⟨1, 2, 3⟩, ⟨4, 5, 6⟩, 7, "wood"⟩] "metal" zeroMaterial).2 = zeroMaterial
    ∧ SetShaderMaterial [⟨⟨1, 2, 3⟩, ⟨4, 5, 6⟩, 7, "wood"⟩] "metal" zeroMaterial =
        [.setMaterialDiffuse zeroMaterial.diffuseColor,
         .setMaterialSpecular zeroMaterial.specularColor,
         .setMaterialShininess zeroMaterial.shininess] :=
  (FindMaterial_nonempty_returns_true [⟨⟨1, 2, 3⟩, ⟨4, 5, 6⟩, 7, "wood"⟩] "metal"
    zeroMaterial).2 (by decide) (by decide)

/-- C9: `CreateGLTexture` modifies the texture registry atomically: when
it returns `false` the state is unchanged; when it returns `true` exactly
one new (ID, tag) entry is appended at index `m_loadedTextures` and the
count grows by one; and no capacity bound is enforced - the append happens
even when the registry already holds 16 or more entries. -/
theorem CreateGLTexture_registry_atomic (image : Option ImageInfo)
    (freshID : Int) (tag : String) (s : SceneState) :
    ((CreateGLTexture image freshID tag s).1 = false →
      (CreateGLTexture image freshID tag s).2 = s)
    ∧ ((CreateGLTexture image freshID tag s).1 = true →
      (CreateGLTexture image freshID tag s).2.textureIDs =
          s.textureIDs ++ [{ ID := freshID, tag := tag }]
      ∧ (CreateGLTexture image freshID tag s).2.textureIDs.length =
          s.textureIDs.length + 1
      ∧ (CreateGLTexture image freshID tag s).2.objectMaterials =
          s.objectMaterials)
    ∧ (16 ≤ s.textureIDs.length →
      (CreateGLTexture (some ⟨64, 64, 3⟩) freshID tag s).1 = true
      ∧ (CreateGLTexture (some ⟨64, 64, 3⟩) freshID tag s).2.textureIDs.length =
          s.textureIDs.length + 1) := by
  refine ⟨?_, ?_, ?_⟩
  · cases image with
    | none => intro _; rfl
    | some img =>
      by_cases h : img.colorChannels = 3 ∨ img.colorChannels = 4 <;>
        simp [CreateGLTexture, h]
  · cases image with
    | none => intro h; exact absurd h (by simp [CreateGLTexture])
    | some img =>
      by_cases h : img.colorChannels = 3 ∨ img.colorChannels = 4 <;>
        simp [CreateGLTexture, h]
  · intro _
    simp [CreateGLTexture]

theorem CreateGLTexture_registry_atomic_witness :
    (CreateGLTexture (some ⟨64, 64, 3⟩) 17 "extra"
        { textureIDs := (List.range 16).map fun i => { ID := (i : Int), tag := "t" },
          objectMaterials := [] }).1 = true
    ∧ (CreateGLTexture (some ⟨64, 64, 3⟩) 17 "extra"
        { textureIDs := (List.range 16).map fun i => { ID := (i : Int), tag := "t" },
          objectMaterials := [] }).2.textureIDs.length =
      ((List.range 16).map fun i => ({ ID := (i : Int), tag := "t" } : TEXTURE_INFO)).length + 1 :=
  (CreateGLTexture_registry_atomic (some ⟨64, 64, 3⟩) 17 "extra"
    { textureIDs := (List.range 16).map fun i => { ID := (i : Int), tag := "t" },
      objectMaterials := [] }).2.2 (by decide)

theorem DestroyGLTexturesLoop_spec (fresh : Nat → Int) (l : List TEXTURE_INFO) :
    ∀ st : Nat,
    (DestroyGLTexturesLoop fresh st l).2.map TEXTURE_INFO.tag = l.map TEXTURE_INFO.tag
    ∧ (DestroyGLTexturesLoop fresh st l).2.map TEXTURE_INFO.ID =
        (List.range l.length).map (fun i => fresh (st + i))
    ∧ (DestroyGLTexturesLoop fresh st l).1 = l.map fun _ => GLCall.genTextures := by
  induction l with
  | nil => intro st; refine ⟨rfl, rfl, rfl⟩
  | cons e rest ih =>
    intro st
    refine ⟨?_, ?_, ?_⟩
    · simp only [DestroyGLTexturesLoop, List.map_cons]
      rw [(ih (st + 1)).1]
    · simp only [DestroyGLTexturesLoop, List.map_cons, List.length_cons,
        List.range_succ_eq_map, List.map_map]
      rw [(ih (st + 1)).2.1]
      congr 1
      apply List.map_congr_left
      intro a _
      simp only [Function.comp_apply]
      congr 1
      omega
    · simp only [DestroyGLTexturesLoop, List.map_cons]
      rw [(ih (st + 1)).2.2]

/-- C10: `DestroyGLTextures` never removes a registry entry or deletes a
texture: the count and every stored tag are unchanged, each stored ID is
overwritten with the freshly generated name from the i-th `glGenTextures`
call, the trace contains one `glGenTextures` call per entry and no
`glDeleteTextures` call at all. -/
theorem DestroyGLTextures_keeps_registry (fresh : Nat → Int) (s : SceneState) :
    (DestroyGLTextures fresh s).2.textureIDs.length = s.textureIDs.length
    ∧ (DestroyGLTextures fresh s).2.textureIDs.map TEXTURE_INFO.tag =
        s.textureIDs.map TEXTURE_INFO.tag
    ∧ (DestroyGLTextures fresh s).2.textureIDs.map TEXTURE_INFO.ID =
        (List.range s.textureIDs.length).map fresh
    ∧ (DestroyGLTextures fresh s).2.objectMaterials = s.objectMaterials
    ∧ (DestroyGLTextures fresh s).1 = s.textureIDs.map fun _ => GLCall.genTextures := by
  have h := DestroyGLTexturesLoop_spec fresh s.textureIDs 0
  refine ⟨?_, h.1, ?_, rfl, h.2.2⟩
  · have := congrArg List.length h.1
    simpa using this
  · rw [DestroyGLTextures]
    have := h.2.1
    simpa using this

/-- C5: `SetupSceneLights` enables lighting once, touches only the slots
`pointLights[0]`, `pointLights[1]` and `pointLights[2]` (no fourth slot),
and assigns each of those slots its position, ambient, diffuse and
specular vectors exactly once and marks it active exactly once. -/
theorem SetupSceneLights_configures_three_slots :
    SetupSceneLights.countP (fun e => e == LightEvent.enableLighting true) = 1
    ∧ (∀ e ∈ SetupSceneLights,
        lightSlotOf e = none ∨ lightSlotOf e = some 0 ∨
        lightSlotOf e = some 1 ∨ lightSlotOf e = some 2)
    ∧ (∀ slot, slot < 3 →
        SetupSceneLights.countP (setsLightField slot .position) = 1
        ∧ SetupSceneLights.countP (setsLightField slot .ambient) = 1
        ∧ SetupSceneLights.countP (setsLightField slot .diffuse) = 1
        ∧ SetupSceneLights.countP (setsLightField slot .specular) = 1
        ∧ SetupSceneLights.countP
            (fun e => e == LightEvent.setLightActive slot true) = 1) := by
  decide

theorem SetupSceneLights_configures_three_slots_witness :
    SetupSceneLights.countP (setsLightField 2 .specular) = 1
    ∧ SetupSceneLights.countP
        (fun e => e == LightEvent.setLightActive 2 true) = 1 :=
  ⟨(SetupSceneLights_configures_three_slots.2.2 2 (by decide)).2.2.2.1,
   (SetupSceneLights_configures_three_slots.2.2 2 (by decide)).2.2.2.2⟩

/-- C8: `RenderScene` is deterministic: from equal texture and material
registry states (and the same contents of the indeterminate local
material), the produced sequence of shader-uniform assignments and draw
calls is identical - it depends on no other input. -/
theorem RenderScene_deterministic (m0 : OBJECT_MATERIAL) (s1 s2 : SceneState)
    (htex : s1.textureIDs = s2.textureIDs)
    (hmat : s1.objectMaterials = s2.objectMaterials) :
    RenderScene m0 s1 = RenderScene m0 s2 := by
  cases s1
  cases s2
  cases htex
  cases hmat
  rfl

theorem RenderScene_deterministic_witness :
    RenderScene zeroMaterial { textureIDs := [], objectMaterials := [] } =
    RenderScene zeroMaterial { textureIDs := [], objectMaterials := [] } :=
  RenderScene_deterministic zeroMaterial
    { textureIDs := [], objectMaterials := [] }
    { textureIDs := [], objectMaterials := [] } rfl rfl

@[simp]
theorem drawsOf_nil : drawsOf [] = [] := rfl

@[simp]
theorem drawsOf_append (a b : List GLEvent) :
    drawsOf (a ++ b) = drawsOf a ++ drawsOf b := by
  simp [drawsOf]

@[simp]
theorem drawsOf_draw_cons (d : DrawCall) (rest : List GLEvent) :
    drawsOf (GLEvent.draw d :: rest) = d :: drawsOf rest := rfl

@[simp]
theorem drawsOf_SetTransformations (sc : Vec3) (rx ry rz : ℚ) (p : Vec3) :
    drawsOf (SetTransformations sc rx ry rz p) = [] := rfl

@[simp]
theorem drawsOf_SetShaderColor (r g b a : ℚ) :
    drawsOf (SetShaderColor r g b a) = [] := rfl

@[simp]
theorem drawsOf_SetShaderTexture (texs : List TEXTURE_INFO) (tag : String) :
    drawsOf (SetShaderTexture texs tag) = [] := rfl

@[simp]
theorem drawsOf_SetTextureUVScale (u v : ℚ) :
    drawsOf (SetTextureUVScale u v) = [] := rfl

@[simp]
theorem drawsOf_SetShaderMaterial (mats : List OBJECT_MATERIAL) (tag : String)
    (m0 : OBJECT_MATERIAL) : drawsOf (SetShaderMaterial mats tag m0) = [] := by
  simp only [SetShaderMaterial]
  split
  · split <;> rfl
  · rfl

@[simp]
theorem drawsOf_flatMap {α : Type} (l : List α) (f : α → List GLEvent) :
    drawsOf (l.flatMap f) = l.flatMap fun a => drawsOf (f a) := by
  simp [drawsOf, List.filterMap_flatMap]

set_option maxRecDepth 100000 in
theorem drawsOf_RenderScene (m0 : OBJECT_MATERIAL) (s : SceneState) :
    drawsOf (RenderScene m0 s) = RenderSceneDrawList := by
  simp only [RenderScene, LoadLamp, LoadMonitor, LoadKeyboard, GenerateKeyCap,
    LoadMouse, LoadPhone, LoadBook, drawsOf_append, drawsOf_draw_cons,
    drawsOf_nil, drawsOf_SetTransformations, drawsOf_SetShaderColor,
    drawsOf_SetShaderTexture, drawsOf_SetTextureUVScale,
    drawsOf_SetShaderMaterial, drawsOf_flatMap, List.nil_append,
    List.append_nil, List.cons_append, List.append_assoc]
  decide

set_option maxRecDepth 100000 in
/-- C6: every primitive mesh is generated once and reused: `PrepareScene`
performs each mesh-load operation at most once (the load list has no
duplicate), and every draw call `RenderScene` issues - including those of
the Load* helper routines, the half-torus mouse wheel and coffee-cup
handle among them - renders a mesh whose load operation `PrepareScene`
performed. -/
theorem PrepareScene_loads_once_and_covers_draws :
    PrepareSceneMeshLoads.Nodup
    ∧ ∀ (m0 : OBJECT_MATERIAL) (s : SceneState),
        ∀ d ∈ drawsOf (RenderScene m0 s), meshLoadOf d ∈ PrepareSceneMeshLoads := by
  refine ⟨by decide, ?_⟩
  intro m0 s d hd
  rw [drawsOf_RenderScene] at hd
  revert d hd
  decide

set_option maxRecDepth 100000 in
theorem PrepareScene_loads_once_and_covers_draws_witness :
    meshLoadOf DrawCall.halfTorus ∈ PrepareSceneMeshLoads :=
  PrepareScene_loads_once_and_covers_draws.2 zeroMaterial
    { textureIDs := [], objectMaterials := [] } DrawCall.halfTorus
    (by rw [drawsOf_RenderScene]; decide)

theorem map_shiftPos_SetTransformations (dx dy dz : ℚ) (sc : Vec3)
    (rx ry rz : ℚ) (p : Vec3) :
    (SetTransformations sc rx ry rz p).map (shiftPos dx dy dz) =
    SetTransformations sc rx ry rz ⟨p.x + dx, p.y + dy, p.z + dz⟩ := rfl

theorem map_shiftPos_SetShaderColor (dx dy dz r g b a : ℚ) :
    (SetShaderColor r g b a).map (shiftPos dx dy dz) = SetShaderColor r g b a := rfl

theorem map_shiftPos_SetShaderTexture (dx dy dz : ℚ) (texs : List TEXTURE_INFO)
    (tag : String) :
    (SetShaderTexture texs tag).map (shiftPos dx dy dz) = SetShaderTexture texs tag := rfl

theorem map_shiftPos_SetTextureUVScale (dx dy dz u v : ℚ) :
    (SetTextureUVScale u v).map (shiftPos dx dy dz) = SetTextureUVScale u v := rfl

theorem map_shiftPos_SetShaderMaterial (dx dy dz : ℚ)
    (mats : List OBJECT_MATERIAL) (tag : String) (m0 : OBJECT_MATERIAL) :
    (SetShaderMaterial mats tag m0).map (shiftPos dx dy dz) =
    SetShaderMaterial mats tag m0 := by
  simp only [SetShaderMaterial]
  split
  · split <;> rfl
  · rfl

theorem map_shiftPos_draw (dx dy dz : ℚ) (d : DrawCall) :
    [GLEvent.draw d].map (shiftPos dx dy dz) = [GLEvent.draw d] := rfl

theorem map_shiftPosRot_SetTransformations (dx dy dz drx dry drz : ℚ)
    (sc : Vec3) (rx ry rz : ℚ) (p : Vec3) :
    (SetTransformations sc rx ry rz p).map (shiftPosRot dx dy dz drx dry drz) =
    SetTransformations sc (rx + drx) (ry + dry) (rz + drz)
      ⟨p.x + dx, p.y + dy, p.z + dz⟩ := rfl

theorem map_shiftPosRot_SetShaderTexture (dx dy dz drx dry drz : ℚ)
    (texs : List TEXTURE_INFO) (tag : String) :
    (SetShaderTexture texs tag).map (shiftPosRot dx dy dz drx dry drz) =
    SetShaderTexture texs tag := rfl

theorem map_shiftPosRot_SetTextureUVScale (dx dy dz drx dry drz u v : ℚ) :
    (SetTextureUVScale u v).map (shiftPosRot dx dy dz drx dry drz) =
    SetTextureUVScale u v := rfl

theorem map_shiftPosRot_SetShaderMaterial (dx dy dz drx dry drz : ℚ)
    (mats : List OBJECT_MATERIAL) (tag : String) (m0 : OBJECT_MATERIAL) :
    (SetShaderMaterial mats tag m0).map (shiftPosRot dx dy dz drx dry drz) =
    SetShaderMaterial mats tag m0 := by
  simp only [SetShaderMaterial]
  split
  · split <;> rfl
  · rfl

theorem map_shiftPosRot_draw (dx dy dz drx dry drz : ℚ) (d : DrawCall) :
    [GLEvent.draw d].map (shiftPosRot dx dy dz drx dry drz) = [GLEvent.draw d] := rfl

theorem shiftPos_draw_eq (dx dy dz : ℚ) (d : DrawCall) :
    shiftPos dx dy dz (GLEvent.draw d) = GLEvent.draw d := rfl

theorem shiftPosRot_draw_eq (dx dy dz drx dry drz : ℚ) (d : DrawCall) :
    shiftPosRot dx dy dz drx dry drz (GLEvent.draw d) = GLEvent.draw d := rfl

theorem map_shiftPos_GenerateKeyCap (dx dy dz a b c : ℚ)
    (m0 : OBJECT_MATERIAL) (s : SceneState) :
    (GenerateKeyCap a b c m0 s).map (shiftPos dx dy dz) =
    GenerateKeyCap (a + dx) (b + dy) (c + dz) m0 s := by
  simp [GenerateKeyCap, map_shiftPos_SetTransformations,
    map_shiftPos_SetTextureUVScale, map_shiftPos_SetShaderTexture,
    map_shiftPos_SetShaderMaterial, map_shiftPos_draw, shiftPos_draw_eq, add_assoc]

/-- C7: every per-object placement routine pairs constant data with its
draw calls: for all offset arguments the produced trace equals the trace
at zero offset with the offset added to the position of every model
transform - so scale, rotation, texture tag / color, UV scale, material
tag and the draw calls themselves are fixed and independent of the
arguments, and each part's position is its constant base position plus
the offset componentwise.  For `LoadBook` the rotation offset arguments
are additionally added to each part's constant rotation. -/
theorem load_routines_constant_data_plus_offset
    (x y z xr yr zr : ℚ) (m0 : OBJECT_MATERIAL) (s : SceneState) :
    LoadLamp x y z m0 s = (LoadLamp 0 0 0 m0 s).map (shiftPos x y z)
    ∧ LoadMonitor x y z m0 s = (LoadMonitor 0 0 0 m0 s).map (shiftPos x y z)
    ∧ LoadKeyboard x y z m0 s = (LoadKeyboard 0 0 0 m0 s).map (shiftPos x y z)
    ∧ LoadMouse x y z m0 s = (LoadMouse 0 0 0 m0 s).map (shiftPos x y z)
    ∧ LoadPhone x y z m0 s = (LoadPhone 0 0 0 m0 s).map (shiftPos x y z)
    ∧ LoadBook x y z xr yr zr m0 s =
        (LoadBook 0 0 0 0 0 0 m0 s).map (shiftPosRot x y z xr yr zr) := by
  refine ⟨?_, ?_, ?_, ?_, ?_, ?_⟩
  · simp [LoadLamp, map_shiftPos_SetTransformations,
      map_shiftPos_SetTextureUVScale, map_shiftPos_SetShaderTexture,
      map_shiftPos_SetShaderMaterial, map_shiftPos_draw, shiftPos_draw_eq]
  · simp [LoadMonitor, map_shiftPos_SetTransformations,
      map_shiftPos_SetTextureUVScale, map_shiftPos_SetShaderTexture,
      map_shiftPos_SetShaderColor, map_shiftPos_SetShaderMaterial,
      map_shiftPos_draw, shiftPos_draw_eq]
  · simp [LoadKeyboard, List.map_flatMap, map_shiftPos_GenerateKeyCap,
      map_shiftPos_SetTransformations, map_shiftPos_SetTextureUVScale,
      map_shiftPos_SetShaderTexture, map_shiftPos_SetShaderMaterial,
      map_shiftPos_draw, shiftPos_draw_eq, add_comm]
  · simp [LoadMouse, map_shiftPos_SetTransformations,
      map_shiftPos_SetTextureUVScale, map_shiftPos_SetShaderTexture,
      map_shiftPos_SetShaderMaterial, map_shiftPos_draw, shiftPos_draw_eq]
  · simp [LoadPhone, map_shiftPos_SetTransformations,
      map_shiftPos_SetTextureUVScale, map_shiftPos_SetShaderTexture,
      map_shiftPos_SetShaderColor, map_shiftPos_SetShaderMaterial,
      map_shiftPos_draw, shiftPos_draw_eq]
  · simp [LoadBook, map_shiftPosRot_SetTransformations,
      map_shiftPosRot_SetTextureUVScale, map_shiftPosRot_SetShaderTexture,
      map_shiftPosRot_SetShaderMaterial, map_shiftPosRot_draw, shiftPosRot_draw_eq]
